import Mathlib

/-!
Verification of the librarian generate-command core: pipeline-state data
model, outcome aggregation into pull-request content, pull-request
publishing with its partial-failure policy, and the refined-vs-raw
generation orchestration.

The Go source is embedded shallowly: mutation of a `PullRequestContent`
becomes a function returning the updated value; calls to external
collaborators (container runtime, git, GitHub API, filesystem) are
modelled by environment records whose fields give each collaborator's
result, and every function additionally returns the ordered list of
collaborator invocations it performed (its effect trace), so that
ordering and absence of side effects are provable statements.
-/

namespace Librarian

/-- A Go `error` value: only its message is observable here. -/
structure GoError where
  msg : String
deriving DecidableEq

/-- `google.protobuf.Timestamp` from the pipeline-state proto. -/
structure Timestamp where
  seconds : Int
  nanos : Int
deriving DecidableEq

/-- `AutomationLevel` enum from the pipeline-state proto. -/
inductive AutomationLevel where
  | levelNone
  | levelBlocked
  | levelManualReview
  | levelAutomatic
deriving DecidableEq

/-- `LibraryState` message: generation state of a single library. -/
structure LibraryState where
  id : String
  currentVersion : String
  nextVersion : String
  generationAutomationLevel : AutomationLevel
  releaseAutomationLevel : AutomationLevel
  releaseTimestamp : Option Timestamp
  lastGeneratedCommit : String
  lastReleasedCommit : String
  apiPaths : List String
  sourcePaths : List String
deriving DecidableEq

/-- `PipelineState` message: overall state of the pipeline, stored as
generator-input/pipeline-state.json in each language repo. -/
structure PipelineState where
  imageTag : String
  libraries : List LibraryState
  commonLibrarySourcePaths : List String
  ignoredApiPaths : List String
deriving DecidableEq

/-- `gitrepo.Repo`: a local working tree; only its directory matters here. -/
structure Repo where
  Dir : String
deriving DecidableEq

/-- `githubrepo.GitHubRepo`: the identity of a remote repository. -/
structure GitHubRepo where
  owner : String
  name : String
deriving DecidableEq

/-- `githubrepo.PullRequestMetadata`: what PR creation returns. -/
structure PullRequestMetadata where
  repo : GitHubRepo
  number : Nat
deriving DecidableEq

/-- `filepath.Join` on two components, for the abstract paths used here. -/
def pathJoin (a b : String) : String := a ++ "/" ++ b

/-- A PullRequestContent builds up the content of a pull request: one
entry per successful operation and one per failed operation. -/
structure PullRequestContent where
  Successes : List String
  Errors : List String
deriving DecidableEq

/-- `addErrorToPullRequest`: records a partial error. The full error
detail is only logged locally (logging is not modelled); the aggregated
content receives only the fixed summary line built from action and id. -/
def addErrorToPullRequest (pr : PullRequestContent) (id : String)
    (err : GoError) (action : String) : PullRequestContent :=
  { pr with Errors := pr.Errors ++ ["Error while " ++ action ++ " " ++ id] }

/-- `addSuccessToPullRequest`: adds a success entry. -/
def addSuccessToPullRequest (pr : PullRequestContent) (text : String) :
    PullRequestContent :=
  { pr with Successes := pr.Successes ++ [text] }

/-- `formatListAsMarkdown`: each value prefixed by a dash and followed by
a line break. -/
def formatListAsMarkdown (list : List String) : String :=
  list.foldl (fun builder value => builder ++ "- " ++ value ++ "\n") ""

/-- One collaborator invocation made by `createPullRequest`, in order:
remote lookup, branch push, remote pull-request creation. -/
inductive PREffect where
  | getRemote
  | pushBranch (branch : String)
  | createPR (branch title description : String)
deriving DecidableEq

/-- Environment of `createPullRequest`: the push flag, the formatted
start timestamp of the command (formatTimestamp of ctx.startTime), and
the results each external collaborator would return. -/
structure PREnv where
  flagPush : Bool
  formattedTime : String
  getGitHubRepoFromRemote : Except GoError GitHubRepo
  pushBranchResult : String → Option GoError
  createPRResult : String → String → String →
    Option PullRequestMetadata × Option GoError

/-- `createPullRequest`: renders the content, applies the description
suffix, and (when push is enabled) looks up the remote, pushes the
branch `librarian-{branchType}-{timestamp}` and creates the pull
request. The Go `len(xs) > 0` tests are rendered as list emptiness. -/
def createPullRequest (env : PREnv) (content : PullRequestContent)
    (titlePfx descriptionSuffix branchType : String) :
    List PREffect × Option PullRequestMetadata × Option GoError :=
  if content.Successes = [] ∧ content.Errors = [] then
    ([], none, none)
  else if content.Successes = [] ∧ content.Errors ≠ [] then
    ([], none, some ⟨"errors encountered but no PR to create"⟩)
  else
    let description :=
      if content.Successes ≠ [] ∧ content.Errors = [] then
        formatListAsMarkdown content.Successes
      else
        "Errors:\n==================\n" ++ formatListAsMarkdown content.Errors
          ++ "\n\nChanges Included:\n==================\n"
          ++ formatListAsMarkdown content.Successes
    let description :=
      if descriptionSuffix ≠ "" then description ++ "\n" ++ descriptionSuffix
      else description
    let title := titlePfx ++ ": " ++ env.formattedTime
    if !env.flagPush then
      ([], none, none)
    else
      match env.getGitHubRepoFromRemote with
      | .error e => ([PREffect.getRemote], none, some e)
      | .ok _ =>
        let branch := "librarian-" ++ branchType ++ "-" ++ env.formattedTime
        match env.pushBranchResult branch with
        | some e => ([PREffect.getRemote, PREffect.pushBranch branch], none, some e)
        | none =>
          let r := env.createPRResult branch title description
          ([PREffect.getRemote, PREffect.pushBranch branch,
            PREffect.createPR branch title description], r.1, r.2)

/-- The rendered body of a pull request with at least one success:
successes alone, or an errors section followed by a changes section. -/
def renderContent (content : PullRequestContent) : String :=
  if content.Errors = [] then formatListAsMarkdown content.Successes
  else
    "Errors:\n==================\n" ++ formatListAsMarkdown content.Errors
      ++ "\n\nChanges Included:\n==================\n"
      ++ formatListAsMarkdown content.Successes

/-- The branch name `createPullRequest` pushes. -/
def branchName (env : PREnv) (branchType : String) : String :=
  "librarian-" ++ branchType ++ "-" ++ env.formattedTime

/-- The full description `createPullRequest` publishes: the rendered
content, with the description suffix appended when non-empty. -/
def prDescription (content : PullRequestContent) (suffix : String) : String :=
  if suffix ≠ "" then renderContent content ++ "\n" ++ suffix
  else renderContent content

/-- One collaborator invocation made by the generate command. -/
inductive GenEffect where
  | mkdir (dir : String)
  | generateLibrary (apiRoot outputDir generatorInput libraryID : String)
  | generateRaw (apiRoot outputDir apiPath : String)
  | clean (repoDir libraryID : String)
  | copyFS (dst src : String)
  | buildLibrary (repoDir libraryID : String)
  | buildRaw (outputDir apiPath : String)
deriving DecidableEq

/-- The slice of `commandState` the generate command reads. The container
configuration is not represented: each collaborator field of `GenEnv`
already closes over it. -/
structure CommandState where
  workRoot : String
  languageRepo : Option Repo
  pipelineState : PipelineState
deriving DecidableEq

/-- Environment of the generate command: flag values and the results the
external collaborators (filepath.Abs, the library resolver defined in a
sibling file, the container runtime, os.Mkdir, os.CopyFS) would return. -/
structure GenEnv where
  flagAPIPath : String
  flagAPIRoot : String
  flagBuild : Bool
  abs : String → Except GoError String
  findLibraryIDByApiPath : PipelineState → String → String
  generateLibrary : String → String → String → String → Option GoError
  generateRaw : String → String → String → Option GoError
  clean : String → String → Option GoError
  copyFS : String → String → Option GoError
  buildLibrary : String → String → Option GoError
  buildRaw : String → String → Option GoError
  mkdir : String → Option GoError

/-- `runGenerateCommand`: resolves the API root, then either performs
refined generation (language repo present, library id resolved) or raw
generation (no language repo). Returns the library id used, or the empty
string for raw generation. -/
def runGenerateCommand (env : GenEnv) (state : CommandState)
    (outputDir : String) : List GenEffect × String × Option GoError :=
  match env.abs env.flagAPIRoot with
  | .error e => ([], "", some e)
  | .ok apiRoot =>
    match state.languageRepo with
    | some repo =>
      let libraryID := env.findLibraryIDByApiPath state.pipelineState env.flagAPIPath
      if libraryID = "" then
        ([], "", some ⟨"bug in Librarian: Library not found during generation, despite being found in earlier steps"⟩)
      else
        let generatorInput := pathJoin repo.Dir "generator-input"
        ([GenEffect.generateLibrary apiRoot outputDir generatorInput libraryID],
          libraryID, env.generateLibrary apiRoot outputDir generatorInput libraryID)
    | none =>
      ([GenEffect.generateRaw apiRoot outputDir env.flagAPIPath], "",
        env.generateRaw apiRoot outputDir env.flagAPIPath)

/-- Modelled from the spec: `validateRequiredFlag` lives in a sibling file
not available here; per the spec a missing required input is a fatal
configuration error, so an empty flag value yields an error. -/
def validateRequiredFlag (name value : String) : Option GoError :=
  if value = "" then some ⟨"required flag not specified: " ++ name⟩ else none

/-- The directory of the language repository, `state.languageRepo.Dir`
in Go. The refined build path only dereferences it when a non-empty
library id was produced, which implies the repo is present; the empty
fallback is unreachable there (in Go it would be a nil dereference). -/
def repoDirOf (state : CommandState) : String :=
  match state.languageRepo with
  | some repo => repo.Dir
  | none => ""

/-- `runGenerate`: validates the flags, creates the output directory,
runs generation, and when a build is requested either cleans, copies the
output into the language repo and builds the library (refined path) or
builds raw against the output directory. -/
def runGenerate (env : GenEnv) (state : CommandState) :
    List GenEffect × Option GoError :=
  match validateRequiredFlag "api-path" env.flagAPIPath with
  | some e => ([], some e)
  | none =>
  match validateRequiredFlag "api-root" env.flagAPIRoot with
  | some e => ([], some e)
  | none =>
    let outputDir := pathJoin state.workRoot "output"
    match env.mkdir outputDir with
    | some e => ([GenEffect.mkdir outputDir], some e)
    | none =>
      let r := runGenerateCommand env state outputDir
      let trace := GenEffect.mkdir outputDir :: r.1
      match r.2.2 with
      | some e => (trace, some e)
      | none =>
        if env.flagBuild then
          let libraryID := r.2.1
          if libraryID ≠ "" then
            let repoDir := repoDirOf state
            match env.clean repoDir libraryID with
            | some e => (trace ++ [GenEffect.clean repoDir libraryID], some e)
            | none =>
              match env.copyFS repoDir outputDir with
              | some e =>
                (trace ++ [GenEffect.clean repoDir libraryID,
                  GenEffect.copyFS repoDir outputDir], some e)
              | none =>
                (trace ++ [GenEffect.clean repoDir libraryID,
                  GenEffect.copyFS repoDir outputDir,
                  GenEffect.buildLibrary repoDir libraryID],
                  env.buildLibrary repoDir libraryID)
          else
            (trace ++ [GenEffect.buildRaw outputDir env.flagAPIPath],
              env.buildRaw outputDir env.flagAPIPath)
        else (trace, none)

/-- The fixed file name of the persisted pipeline state within the
generator-input directory. -/
def pipelineStateFile : String := "pipeline-state.json"

/-- Environment of `openOrCloneLanguageRepoIfLibraryExists`: repo flags
and the results of the state loaders and the repo collaborator. -/
structure RepoEnv where
  flagRepoUrl : String
  flagRepoRoot : String
  flagAPIPath : String
  loadPipelineStateFile : String → Except GoError PipelineState
  parseUrl : String → Except GoError GitHubRepo
  fetchRemotePipelineState : GitHubRepo → String → Except GoError PipelineState
  findLibraryIDByApiPath : PipelineState → String → String
  cloneOrOpenLanguageRepo : String → Option Repo × Option GoError

/-- `openOrCloneLanguageRepoIfLibraryExists`: with neither flag set,
returns no repo and no error; with both set, a configuration error; else
loads the pipeline state locally or remotely and opens/clones the repo
only when the API path resolves to a library. -/
def openOrCloneLanguageRepoIfLibraryExists (env : RepoEnv)
    (workRoot : String) : Option Repo × Option GoError :=
  if env.flagRepoUrl = "" ∧ env.flagRepoRoot = "" then
    (none, none)
  else if env.flagRepoRoot ≠ "" ∧ env.flagRepoUrl ≠ "" then
    (none, some ⟨"do not specify both repo-root and repo-url"⟩)
  else
    let stres : Except GoError PipelineState :=
      if env.flagRepoRoot ≠ "" then
        env.loadPipelineStateFile
          (pathJoin (pathJoin env.flagRepoRoot "generator-input") pipelineStateFile)
      else
        match env.parseUrl env.flagRepoUrl with
        | .error e => .error e
        | .ok meta => env.fetchRemotePipelineState meta "HEAD"
    match stres with
    | .error e => (none, some e)
    | .ok ps =>
      let libraryID := env.findLibraryIDByApiPath ps env.flagAPIPath
      if libraryID = "" then (none, none)
      else env.cloneOrOpenLanguageRepo workRoot

/-! Concrete environments used by the witnesses. -/

/-- A publisher environment whose collaborators all succeed. -/
def prEnvOk : PREnv :=
  { flagPush := true
    formattedTime := "ts"
    getGitHubRepoFromRemote := Except.ok ⟨"googleapis", "google-cloud-x"⟩
    pushBranchResult := fun _ => none
    createPRResult := fun _ _ _ => (some ⟨⟨"googleapis", "google-cloud-x"⟩, 1⟩, none) }

/-- A publisher environment whose branch push fails. -/
def prEnvPushFail : PREnv :=
  { prEnvOk with pushBranchResult := fun _ => some ⟨"push failed"⟩ }

/-- An empty pipeline state for the witnesses. -/
def testPipelineState : PipelineState := ⟨"latest", [], [], []⟩

/-- A generation environment whose collaborators all succeed and whose
resolver knows exactly one API path. -/
def testGenEnv : GenEnv :=
  { flagAPIPath := "google/cloud/functions/v2"
    flagAPIRoot := "/api"
    flagBuild := true
    abs := fun p => Except.ok p
    findLibraryIDByApiPath := fun _ path =>
      if path = "google/cloud/functions/v2" then "functions" else ""
    generateLibrary := fun _ _ _ _ => none
    generateRaw := fun _ _ _ => none
    clean := fun _ _ => none
    copyFS := fun _ _ => none
    buildLibrary := fun _ _ => none
    buildRaw := fun _ _ => none
    mkdir := fun _ => none }

/-- A command state carrying a language repository. -/
def testState : CommandState := ⟨"/work", some ⟨"/repo"⟩, testPipelineState⟩

/-- A command state with no language repository. -/
def rawState : CommandState := ⟨"/work", none, testPipelineState⟩

/-- A repository environment with neither repo flag set. -/
def repoEnvNoFlags : RepoEnv :=
  { flagRepoUrl := ""
    flagRepoRoot := ""
    flagAPIPath := "google/cloud/functions/v2"
    loadPipelineStateFile := fun _ => Except.ok testPipelineState
    parseUrl := fun _ => Except.error ⟨"no url"⟩
    fetchRemotePipelineState := fun _ _ => Except.ok testPipelineState
    findLibraryIDByApiPath := fun _ _ => ""
    cloneOrOpenLanguageRepo := fun _ => (some ⟨"/repo"⟩, none) }

/-! Claims. -/

/-- C7: addErrorToPullRequest appends only the fixed summary line built
from the action and the id; the error value never reaches the aggregated
content, so two calls differing only in the error value produce the same
PullRequestContent. -/
theorem addErrorToPullRequest_error_value_irrelevant
    (pr : PullRequestContent) (id action : String) (e1 e2 : GoError) :
    addErrorToPullRequest pr id e1 action = addErrorToPullRequest pr id e2 action ∧
    addErrorToPullRequest pr id e1 action =
      { pr with Errors := pr.Errors ++ ["Error while " ++ action ++ " " ++ id] } :=
  ⟨rfl, rfl⟩

/-- C9: addSuccessToPullRequest appends exactly one entry to Successes
and leaves Errors unchanged; addErrorToPullRequest appends exactly one
entry to Errors and leaves Successes unchanged. -/
theorem add_to_pull_request_frame (pr : PullRequestContent)
    (text id action : String) (err : GoError) :
    (addSuccessToPullRequest pr text).Successes = pr.Successes ++ [text] ∧
    (addSuccessToPullRequest pr text).Errors = pr.Errors ∧
    (addErrorToPullRequest pr id err action).Errors =
      pr.Errors ++ ["Error while " ++ action ++ " " ++ id] ∧
    (addErrorToPullRequest pr id err action).Successes = pr.Successes :=
  ⟨rfl, rfl, rfl, rfl⟩

/-- C2: with at least one success and the push flag disabled,
createPullRequest performs no collaborator call at all (empty effect
trace: no remote lookup, no push, no PR creation) and returns no
metadata and no error. -/
theorem createPullRequest_dry_run (env : PREnv) (content : PullRequestContent)
    (titlePfx descriptionSuffix branchType : String)
    (hs : content.Successes ≠ []) (hp : env.flagPush = false) :
    createPullRequest env content titlePfx descriptionSuffix branchType =
      ([], none, none) := by
  simp [createPullRequest, hs, hp]

/-- Witness for C2 at a concrete non-empty content. -/
theorem createPullRequest_dry_run_witness :
    createPullRequest { prEnvOk with flagPush := false }
      ⟨["generated a"], ["Error while generating b"]⟩ "feat" "" "generate" =
      ([], none, none) :=
  createPullRequest_dry_run _ _ _ _ _ (by decide) rfl

/-- C4: runGenerateCommand performs refined generation (generator-input
directory and resolved library id passed to the generation collaborator,
library id returned) when a language repo is present, and raw generation
(apiRoot and apiPath only, empty id returned) when it is not. -/
theorem runGenerateCommand_two_branch (env : GenEnv) (state : CommandState)
    (outputDir apiRoot : String)
    (habs : env.abs env.flagAPIRoot = Except.ok apiRoot) :
    (∀ repo, state.languageRepo = some repo →
      env.findLibraryIDByApiPath state.pipelineState env.flagAPIPath ≠ "" →
      runGenerateCommand env state outputDir =
        ([GenEffect.generateLibrary apiRoot outputDir
            (pathJoin repo.Dir "generator-input")
            (env.findLibraryIDByApiPath state.pipelineState env.flagAPIPath)],
          env.findLibraryIDByApiPath state.pipelineState env.flagAPIPath,
          env.generateLibrary apiRoot outputDir (pathJoin repo.Dir "generator-input")
            (env.findLibraryIDByApiPath state.pipelineState env.flagAPIPath))) ∧
    (state.languageRepo = none →
      runGenerateCommand env state outputDir =
        ([GenEffect.generateRaw apiRoot outputDir env.flagAPIPath], "",
          env.generateRaw apiRoot outputDir env.flagAPIPath)) := by
  constructor
  · intro repo hrepo hlib
    simp [runGenerateCommand, habs, hrepo, hlib]
  · intro hrepo
    simp [runGenerateCommand, habs, hrepo]

/-- Witness for C4: refined generation at a concrete resolved library. -/
theorem runGenerateCommand_two_branch_witness :
    runGenerateCommand testGenEnv testState "/work/output" =
      ([GenEffect.generateLibrary "/api" "/work/output"
          (pathJoin "/repo" "generator-input") "functions"], "functions", none) :=
  (runGenerateCommand_two_branch testGenEnv testState "/work/output" "/api" rfl).1
    ⟨"/repo"⟩ rfl (by decide)

/-- C5: with a language repo present but the resolver returning an empty
library id, runGenerateCommand returns a bug-class error and performs no
generation call at all (empty effect trace). -/
theorem runGenerateCommand_resolution_failure (env : GenEnv)
    (state : CommandState) (outputDir apiRoot : String) (repo : Repo)
    (hrepo : state.languageRepo = some repo)
    (habs : env.abs env.flagAPIRoot = Except.ok apiRoot)
    (hmiss : env.findLibraryIDByApiPath state.pipelineState env.flagAPIPath = "") :
    runGenerateCommand env state outputDir =
      ([], "", some ⟨"bug in Librarian: Library not found during generation, despite being found in earlier steps"⟩) := by
  simp [runGenerateCommand, habs, hrepo, hmiss]

/-- Witness for C5 at an API path the resolver does not know. -/
theorem runGenerateCommand_resolution_failure_witness :
    runGenerateCommand { testGenEnv with flagAPIPath := "some/unmapped/api" }
      testState "/work/output" =
      ([], "", some ⟨"bug in Librarian: Library not found during generation, despite being found in earlier steps"⟩) :=
  runGenerateCommand_resolution_failure _ testState "/work/output" "/api"
    ⟨"/repo"⟩ rfl rfl (by decide)

/-- C10: with neither a repo URL nor a repo root supplied,
openOrCloneLanguageRepoIfLibraryExists returns no repository and no
error, and a state without a language repo makes runGenerateCommand take
the raw-generation branch rather than fail. -/
theorem openOrClone_no_flags_raw_mode (env : RepoEnv) (workRoot : String)
    (hurl : env.flagRepoUrl = "") (hroot : env.flagRepoRoot = "") :
    openOrCloneLanguageRepoIfLibraryExists env workRoot = (none, none) ∧
    (∀ genv : GenEnv, ∀ state : CommandState, ∀ outputDir apiRoot : String,
      state.languageRepo = none → genv.abs genv.flagAPIRoot = Except.ok apiRoot →
      runGenerateCommand genv state outputDir =
        ([GenEffect.generateRaw apiRoot outputDir genv.flagAPIPath], "",
          genv.generateRaw apiRoot outputDir genv.flagAPIPath)) := by
  constructor
  · simp [openOrCloneLanguageRepoIfLibraryExists, hurl, hroot]
  · intro genv st od ar h1 h2
    simp [runGenerateCommand, h2, h1]

/-- Witness for C10 with both flags empty and a repo-less state. -/
theorem openOrClone_no_flags_raw_mode_witness :
    openOrCloneLanguageRepoIfLibraryExists repoEnvNoFlags "/work" = (none, none) ∧
    runGenerateCommand testGenEnv rawState "/out" =
      ([GenEffect.generateRaw "/api" "/out" "google/cloud/functions/v2"], "", none) :=
  ⟨(openOrClone_no_flags_raw_mode repoEnvNoFlags "/work" rfl rfl).1,
   (openOrClone_no_flags_raw_mode repoEnvNoFlags "/work" rfl rfl).2
     testGenEnv rawState "/out" "/api" rfl rfl⟩

/-- C1: the three-outcome partial-failure policy of createPullRequest:
empty content returns no metadata and no error with no side effect;
errors only returns a hard error and creates nothing; at least one
success proceeds to create the pull request whose description renders
successes (and errors when present) under their headings, the content
errors never causing an error return. -/
theorem createPullRequest_three_outcomes (env : PREnv)
    (content : PullRequestContent) (titlePfx descriptionSuffix branchType : String) :
    (content.Successes = [] → content.Errors = [] →
      createPullRequest env content titlePfx descriptionSuffix branchType =
        ([], none, none)) ∧
    (content.Successes = [] → content.Errors ≠ [] →
      createPullRequest env content titlePfx descriptionSuffix branchType =
        ([], none, some ⟨"errors encountered but no PR to create"⟩)) ∧
    (content.Successes ≠ [] → env.flagPush = true →
      ∀ gh, env.getGitHubRepoFromRemote = Except.ok gh →
      env.pushBranchResult (branchName env branchType) = none →
      createPullRequest env content titlePfx descriptionSuffix branchType =
        ([PREffect.getRemote, PREffect.pushBranch (branchName env branchType),
          PREffect.createPR (branchName env branchType)
            (titlePfx ++ ": " ++ env.formattedTime)
            (prDescription content descriptionSuffix)],
          (env.createPRResult (branchName env branchType)
            (titlePfx ++ ": " ++ env.formattedTime)
            (prDescription content descriptionSuffix)).1,
          (env.createPRResult (branchName env branchType)
            (titlePfx ++ ": " ++ env.formattedTime)
            (prDescription content descriptionSuffix)).2)) := by
  refine ⟨?_, ?_, ?_⟩
  · intro hs he
    simp [createPullRequest, hs, he]
  · intro hs he
    simp [createPullRequest, hs, he]
  · intro hs hp gh hg hpush
    simp only [branchName] at hpush
    by_cases he : content.Errors = [] <;>
      simp [createPullRequest, prDescription, renderContent, branchName,
        hs, hp, hg, hpush, he]

/-- Witness for C1 on the mixed one-success one-error content. -/
theorem createPullRequest_three_outcomes_witness :
    createPullRequest prEnvOk ⟨["s1"], ["e1"]⟩ "feat" "" "generate" =
      ([PREffect.getRemote, PREffect.pushBranch (branchName prEnvOk "generate"),
        PREffect.createPR (branchName prEnvOk "generate")
          ("feat" ++ ": " ++ prEnvOk.formattedTime)
          (prDescription ⟨["s1"], ["e1"]⟩ "")],
        some ⟨⟨"googleapis", "google-cloud-x"⟩, 1⟩, none) :=
  (createPullRequest_three_outcomes prEnvOk ⟨["s1"], ["e1"]⟩ "feat" "" "generate").2.2
    (by decide) rfl ⟨"googleapis", "google-cloud-x"⟩ rfl rfl

/-- C8: the published description is exactly the rendered content when
the suffix is empty, and the rendered content with the suffix appended
as an additional paragraph otherwise. -/
theorem createPullRequest_description_suffix (env : PREnv)
    (content : PullRequestContent) (titlePfx descriptionSuffix branchType : String)
    (hs : content.Successes ≠ []) (hp : env.flagPush = true)
    (gh : GitHubRepo) (hg : env.getGitHubRepoFromRemote = Except.ok gh)
    (hpush : env.pushBranchResult (branchName env branchType) = none) :
    (createPullRequest env content titlePfx descriptionSuffix branchType).1 =
      [PREffect.getRemote, PREffect.pushBranch (branchName env branchType),
       PREffect.createPR (branchName env branchType)
         (titlePfx ++ ": " ++ env.formattedTime)
         (if descriptionSuffix = "" then renderContent content
          else renderContent content ++ "\n" ++ descriptionSuffix)] := by
  simp only [branchName] at hpush
  by_cases hd : descriptionSuffix = "" <;>
    by_cases he : content.Errors = [] <;>
      simp [createPullRequest, renderContent, branchName, hs, hp, hg, hpush, hd, he]

/-- Witness for C8 with a non-empty suffix. -/
theorem createPullRequest_description_suffix_witness :
    (createPullRequest prEnvOk ⟨["s1"], []⟩ "feat" "extra" "generate").1 =
      [PREffect.getRemote, PREffect.pushBranch (branchName prEnvOk "generate"),
       PREffect.createPR (branchName prEnvOk "generate")
         ("feat" ++ ": " ++ prEnvOk.formattedTime)
         (if ("extra" : String) = "" then renderContent ⟨["s1"], []⟩
          else renderContent ⟨["s1"], []⟩ ++ "\n" ++ "extra")] :=
  createPullRequest_description_suffix prEnvOk ⟨["s1"], []⟩ "feat" "extra" "generate"
    (by decide) rfl ⟨"googleapis", "google-cloud-x"⟩ rfl rfl

/-- C3: when the branch push fails, its error is returned and PR
creation is never invoked; conversely, any PR-creation effect in the
trace happened on a branch whose push succeeded and after the push (the
trace is exactly remote lookup, then push, then creation). -/
theorem createPullRequest_push_before_create (env : PREnv)
    (content : PullRequestContent) (titlePfx descriptionSuffix branchType : String) :
    (∀ e, content.Successes ≠ [] → env.flagPush = true →
      (∃ gh, env.getGitHubRepoFromRemote = Except.ok gh) →
      env.pushBranchResult (branchName env branchType) = some e →
      createPullRequest env content titlePfx descriptionSuffix branchType =
        ([PREffect.getRemote, PREffect.pushBranch (branchName env branchType)],
          none, some e)) ∧
    (∀ br ti d, PREffect.createPR br ti d ∈
        (createPullRequest env content titlePfx descriptionSuffix branchType).1 →
      env.pushBranchResult br = none ∧
      (createPullRequest env content titlePfx descriptionSuffix branchType).1 =
        [PREffect.getRemote, PREffect.pushBranch br, PREffect.createPR br ti d]) := by
  constructor
  · rintro e hs hp ⟨gh, hg⟩ hpush
    simp only [branchName] at hpush
    simp [createPullRequest, branchName, hs, hp, hg, hpush]
  · intro br ti d hmem
    by_cases hs : content.Successes = []
    · by_cases he : content.Errors = [] <;>
        simp [createPullRequest, hs, he] at hmem
    · cases hp : env.flagPush with
      | false => simp [createPullRequest, hs, hp] at hmem
      | true =>
        cases hg : env.getGitHubRepoFromRemote with
        | error e => simp [createPullRequest, hs, hp, hg] at hmem
        | ok gh =>
          cases hpr : env.pushBranchResult
              ("librarian-" ++ branchType ++ "-" ++ env.formattedTime) with
          | some e => simp [createPullRequest, hs, hp, hg, hpr] at hmem
          | none =>
            simp only [createPullRequest, hs, hp, hg, hpr] at hmem ⊢
            simp at hmem
            obtain ⟨h1, h2, h3⟩ := hmem
            subst h1
            subst h2
            subst h3
            refine ⟨hpr, ?_⟩
            simp [hs, hpr]

/-- Witness for C3: the failing-push run and the createPR-occurs run. -/
theorem createPullRequest_push_before_create_witness :
    createPullRequest prEnvPushFail ⟨["s1"], []⟩ "feat" "" "generate" =
      ([PREffect.getRemote, PREffect.pushBranch (branchName prEnvPushFail "generate")],
        none, some ⟨"push failed"⟩) ∧
    (prEnvOk.pushBranchResult "librarian-generate-ts" = none ∧
      (createPullRequest prEnvOk ⟨["s1"], []⟩ "feat" "" "generate").1 =
        [PREffect.getRemote, PREffect.pushBranch "librarian-generate-ts",
         PREffect.createPR "librarian-generate-ts" "feat: ts" "- s1\n"]) :=
  ⟨(createPullRequest_push_before_create prEnvPushFail ⟨["s1"], []⟩ "feat" "" "generate").1
      ⟨"push failed"⟩ (by decide) rfl ⟨⟨"googleapis", "google-cloud-x"⟩, rfl⟩ rfl,
   (createPullRequest_push_before_create prEnvOk ⟨["s1"], []⟩ "feat" "" "generate").2
      "librarian-generate-ts" "feat: ts" "- s1\n" (by decide)⟩

/-- C6: with a build requested and generation successful, a non-empty
library id triggers clean, then copy, then the library-scoped build, in
that order, each failure returned unmodified and stopping the sequence;
an empty library id triggers the raw build against the output
directory. -/
theorem runGenerate_build_sequence (env : GenEnv) (state : CommandState)
    (gtr : List GenEffect) (lib : String)
    (h1 : env.flagAPIPath ≠ "") (h2 : env.flagAPIRoot ≠ "")
    (hm : env.mkdir (pathJoin state.workRoot "output") = none)
    (hg : runGenerateCommand env state (pathJoin state.workRoot "output") =
      (gtr, lib, none))
    (hb : env.flagBuild = true) :
    (lib = "" →
      runGenerate env state =
        (GenEffect.mkdir (pathJoin state.workRoot "output") :: gtr ++
          [GenEffect.buildRaw (pathJoin state.workRoot "output") env.flagAPIPath],
          env.buildRaw (pathJoin state.workRoot "output") env.flagAPIPath)) ∧
    (lib ≠ "" → ∀ e, env.clean (repoDirOf state) lib = some e →
      runGenerate env state =
        (GenEffect.mkdir (pathJoin state.workRoot "output") :: gtr ++
          [GenEffect.clean (repoDirOf state) lib], some e)) ∧
    (lib ≠ "" → env.clean (repoDirOf state) lib = none →
      ∀ e, env.copyFS (repoDirOf state) (pathJoin state.workRoot "output") = some e →
      runGenerate env state =
        (GenEffect.mkdir (pathJoin state.workRoot "output") :: gtr ++
          [GenEffect.clean (repoDirOf state) lib,
           GenEffect.copyFS (repoDirOf state) (pathJoin state.workRoot "output")],
          some e)) ∧
    (lib ≠ "" → env.clean (repoDirOf state) lib = none →
      env.copyFS (repoDirOf state) (pathJoin state.workRoot "output") = none →
      runGenerate env state =
        (GenEffect.mkdir (pathJoin state.workRoot "output") :: gtr ++
          [GenEffect.clean (repoDirOf state) lib,
           GenEffect.copyFS (repoDirOf state) (pathJoin state.workRoot "output"),
           GenEffect.buildLibrary (repoDirOf state) lib],
          env.buildLibrary (repoDirOf state) lib)) := by
  refine ⟨?_, ?_, ?_, ?_⟩
  · intro hlib
    simp [runGenerate, validateRequiredFlag, h1, h2, hm, hg, hb, hlib]
  · intro hlib e hclean
    simp [runGenerate, validateRequiredFlag, h1, h2, hm, hg, hb, hlib, hclean]
  · intro hlib hclean e hcopy
    simp [runGenerate, validateRequiredFlag, h1, h2, hm, hg, hb, hlib, hclean, hcopy]
  · intro hlib hclean hcopy
    simp [runGenerate, validateRequiredFlag, h1, h2, hm, hg, hb, hlib, hclean, hcopy]

/-- Witness for C6 on the all-success refined build path. -/
theorem runGenerate_build_sequence_witness :
    runGenerate testGenEnv testState =
      (GenEffect.mkdir (pathJoin "/work" "output") ::
        [GenEffect.generateLibrary "/api" (pathJoin "/work" "output")
          (pathJoin "/repo" "generator-input") "functions"] ++
        [GenEffect.clean (repoDirOf testState) "functions",
         GenEffect.copyFS (repoDirOf testState) (pathJoin "/work" "output"),
         GenEffect.buildLibrary (repoDirOf testState) "functions"],
        none) :=
  (runGenerate_build_sequence testGenEnv testState
      [GenEffect.generateLibrary "/api" (pathJoin "/work" "output")
        (pathJoin "/repo" "generator-input") "functions"] "functions"
      (by decide) (by decide) rfl (by decide) rfl).2.2.2
    (by decide) rfl rfl

end Librarian
